import Mathlib

set_option maxRecDepth 8192

/-!
# Verification of the movie_recommendation cache-aside fetch-and-normalize pipeline

Shallow embedding of the core of `src/movies/utils.py` and `src/movies/views.py`
(Django REST views over the TMDb API), together with proofs settling the
specification claims.

Modelling conventions:
* Upstream JSON payloads are modelled by the inductive `Json`.  Python floats
  are abstracted to `Int` (no claim depends on fractional values); Python
  `None` is `Json.null`.
* Python exception control flow is modelled with `Except PyExc`; the broad
  `except Exception` handlers of the source become explicit catches.
* The Django ORM table for `Movie` (keyed by the unique `tmdb_id` column,
  `models.py` line 4) is modelled as a list of records; `Movie.objects.
  get_or_create` is the atomic find-or-insert `store_get_or_create`.
* `django.core.cache` is modelled as an association list from string keys to
  payloads with the TTL recorded; an entry being present models being within
  its TTL window (expiry is not modelled, no claim distinguishes expiry from
  absence beyond that).
* HTTP request handling (routing, auth) is out of scope per the spec; each
  view is a function of its request parameters, the current cache, the
  current store and the upstream outcome, returning the response together
  with the new cache and store and whether upstream was consulted.
-/

/-- A JSON value as delivered by the upstream API and handled by the Python
code.  Numbers are abstracted to `Int` (the code never branches on
fractional parts in any claim-relevant place). -/
inductive Json where
  | null
  | bool (b : Bool)
  | num (n : Int)
  | str (s : String)
  | arr (xs : List Json)
  | obj (kvs : List (String × Json))
deriving Repr, Inhabited

mutual

/-- Decidable equality for `Json` (the nested induction prevents deriving). -/
def Json.decEq : (a b : Json) → Decidable (a = b)
  | .null, .null => isTrue rfl
  | .null, .bool _ => isFalse (fun h => Json.noConfusion h)
  | .null, .num _ => isFalse (fun h => Json.noConfusion h)
  | .null, .str _ => isFalse (fun h => Json.noConfusion h)
  | .null, .arr _ => isFalse (fun h => Json.noConfusion h)
  | .null, .obj _ => isFalse (fun h => Json.noConfusion h)
  | .bool _, .null => isFalse (fun h => Json.noConfusion h)
  | .bool x, .bool y =>
      if h : x = y then isTrue (by rw [h]) else isFalse (fun hh => h (by injection hh))
  | .bool _, .num _ => isFalse (fun h => Json.noConfusion h)
  | .bool _, .str _ => isFalse (fun h => Json.noConfusion h)
  | .bool _, .arr _ => isFalse (fun h => Json.noConfusion h)
  | .bool _, .obj _ => isFalse (fun h => Json.noConfusion h)
  | .num _, .null => isFalse (fun h => Json.noConfusion h)
  | .num _, .bool _ => isFalse (fun h => Json.noConfusion h)
  | .num x, .num y =>
      if h : x = y then isTrue (by rw [h]) else isFalse (fun hh => h (by injection hh))
  | .num _, .str _ => isFalse (fun h => Json.noConfusion h)
  | .num _, .arr _ => isFalse (fun h => Json.noConfusion h)
  | .num _, .obj _ => isFalse (fun h => Json.noConfusion h)
  | .str _, .null => isFalse (fun h => Json.noConfusion h)
  | .str _, .bool _ => isFalse (fun h => Json.noConfusion h)
  | .str _, .num _ => isFalse (fun h => Json.noConfusion h)
  | .str x, .str y =>
      if h : x = y then isTrue (by rw [h]) else isFalse (fun hh => h (by injection hh))
  | .str _, .arr _ => isFalse (fun h => Json.noConfusion h)
  | .str _, .obj _ => isFalse (fun h => Json.noConfusion h)
  | .arr _, .null => isFalse (fun h => Json.noConfusion h)
  | .arr _, .bool _ => isFalse (fun h => Json.noConfusion h)
  | .arr _, .num _ => isFalse (fun h => Json.noConfusion h)
  | .arr _, .str _ => isFalse (fun h => Json.noConfusion h)
  | .arr xs, .arr ys =>
      match Json.decEqList xs ys with
      | isTrue h => isTrue (by rw [h])
      | isFalse h => isFalse (fun hh => h (by injection hh))
  | .arr _, .obj _ => isFalse (fun h => Json.noConfusion h)
  | .obj _, .null => isFalse (fun h => Json.noConfusion h)
  | .obj _, .bool _ => isFalse (fun h => Json.noConfusion h)
  | .obj _, .num _ => isFalse (fun h => Json.noConfusion h)
  | .obj _, .str _ => isFalse (fun h => Json.noConfusion h)
  | .obj _, .arr _ => isFalse (fun h => Json.noConfusion h)
  | .obj xs, .obj ys =>
      match Json.decEqKVs xs ys with
      | isTrue h => isTrue (by rw [h])
      | isFalse h => isFalse (fun hh => h (by injection hh))

/-- Decidable equality for lists of `Json`. -/
def Json.decEqList : (xs ys : List Json) → Decidable (xs = ys)
  | [], [] => isTrue rfl
  | [], _ :: _ => isFalse (fun h => List.noConfusion h)
  | _ :: _, [] => isFalse (fun h => List.noConfusion h)
  | x :: xs, y :: ys =>
      match Json.decEq x y with
      | isFalse h => isFalse (fun hh => h (by injection hh))
      | isTrue h1 =>
        match Json.decEqList xs ys with
        | isTrue h2 => isTrue (by rw [h1, h2])
        | isFalse h2 => isFalse (fun hh => h2 (by injection hh))

/-- Decidable equality for object binding lists. -/
def Json.decEqKVs : (xs ys : List (String × Json)) → Decidable (xs = ys)
  | [], [] => isTrue rfl
  | [], _ :: _ => isFalse (fun h => List.noConfusion h)
  | _ :: _, [] => isFalse (fun h => List.noConfusion h)
  | (k1, v1) :: xs, (k2, v2) :: ys =>
      if hk : k1 = k2 then
        match Json.decEq v1 v2 with
        | isFalse h =>
            isFalse (fun hh => h (by injection hh with h1 h2; injection h1))
        | isTrue hv =>
          match Json.decEqKVs xs ys with
          | isTrue h2 => isTrue (by rw [hk, hv, h2])
          | isFalse h2 => isFalse (fun hh => h2 (by injection hh))
      else
        isFalse (fun hh => hk (by injection hh with h1 h2; injection h1))

end

instance : DecidableEq Json := Json.decEq

namespace Json

/-- Python truthiness (`bool(x)`): `None`, `False`, `0`, `""`, `[]`, `{}`
are falsy, everything else truthy. -/
def truthy : Json → Bool
  | null => false
  | bool b => b
  | num n => n != 0
  | str s => s != ""
  | arr xs => !xs.isEmpty
  | obj kvs => !kvs.isEmpty

/-- First binding for a key in an object (Python dicts have unique keys;
we consistently take the first binding). -/
def lookup (k : String) : Json → Option Json
  | obj kvs => (kvs.find? (fun kv => kv.1 == k)).map (fun kv => kv.2)
  | _ => none

/-- `d.get(k)`: the value bound to `k`, or `None` when absent. -/
def pyGet (d : Json) (k : String) : Json := (d.lookup k).getD null

/-- `d.get(k, default)`: the value bound to `k` (even when falsy), or the
default only when the key is absent. -/
def pyGetD (d : Json) (k : String) (dflt : Json) : Json := (d.lookup k).getD dflt

/-- `k in d` for a dict. -/
def hasKey (d : Json) (k : String) : Bool := (d.lookup k).isSome

end Json

/-- The Python exception classes the embedded code can raise.  Every one of
them is caught by a broad handler in the source, so only the fact of a raise
is observable. -/
inductive PyExc where
  | typeError
  | attributeError
  | keyError
deriving Repr, DecidableEq

/-- `float(x)` as used for `vote_average` (utils.py lines 85-89): numbers map
to themselves, booleans to 0/1, numeric strings parse (fractional digits are
truncated under the `Int` abstraction), and every failing case is caught
locally and replaced by the default 0.  Total by construction because the
source wraps the conversion in `try/except (TypeError, ValueError)`. -/
def pyFloatCoerce : Json → Int
  | Json.null => 0
  | Json.bool b => if b then 1 else 0
  | Json.num n => n
  | Json.str s =>
      let t := s.trim
      let core := if t.startsWith "-" || t.startsWith "+" then t.drop 1 else t
      let intPart := core.takeWhile Char.isDigit
      let rest := core.drop intPart.length
      let fracOk := rest == "" ||
        (rest.startsWith "." && (rest.drop 1).all Char.isDigit && rest.length > 1)
      if intPart != "" && fracOk then
        (if t.startsWith "-" then -1 else 1) * (intPart.toNat?.getD 0 : Int)
      else 0
  | Json.arr _ => 0
  | Json.obj _ => 0

/-- `int(x)` as used for `vote_count` (utils.py lines 92-96): same local
catch-all policy, but string parsing is strict integer parsing. -/
def pyIntCoerce : Json → Int
  | Json.null => 0
  | Json.bool b => if b then 1 else 0
  | Json.num n => n
  | Json.str s =>
      let t := s.trim
      let core := if t.startsWith "-" || t.startsWith "+" then t.drop 1 else t
      if core != "" && core.all Char.isDigit then
        (if t.startsWith "-" then -1 else 1) * (core.toNat?.getD 0 : Int)
      else 0
  | Json.arr _ => 0
  | Json.obj _ => 0

/-- `int(x)` where failure is NOT locally caught (used for `int(page)` in
`search_movies`, views.py line 171, where a `ValueError`/`TypeError`
propagates to the view's catch-all). -/
def pyIntStrict : Json → Except PyExc Int
  | Json.num n => Except.ok n
  | Json.bool b => Except.ok (if b then 1 else 0)
  | Json.str s =>
      let t := s.trim
      let core := if t.startsWith "-" || t.startsWith "+" then t.drop 1 else t
      if core != "" && core.all Char.isDigit then
        Except.ok ((if t.startsWith "-" then -1 else 1) * (core.toNat?.getD 0 : Int))
      else Except.error PyExc.typeError
  | _ => Except.error PyExc.typeError

/-- The f-string rendering of a request parameter used in the search cache
key (views.py line 135).  Only numbers and strings occur as page values in
practice; the remaining renderings follow Python's `str()`. -/
def pyStr : Json → String
  | Json.null => "None"
  | Json.bool b => if b then "True" else "False"
  | Json.num n => toString n
  | Json.str s => s
  | Json.arr _ => "[...]"
  | Json.obj _ => "{...}"

/-- A calendar date as produced by `datetime.strptime(s, '%Y-%m-%d').date()`. -/
structure PyDate where
  year : Nat
  month : Nat
  day : Nat
deriving Repr, DecidableEq

/-- Gregorian leap-year rule, as used by Python's `datetime`. -/
def isLeapYear (y : Nat) : Bool :=
  y % 4 == 0 && (y % 100 != 0 || y % 400 == 0)

/-- Days in a month of the proleptic Gregorian calendar. -/
def daysInMonth (y m : Nat) : Nat :=
  if m == 2 then (if isLeapYear y then 29 else 28)
  else if m == 4 || m == 6 || m == 9 || m == 11 then 30
  else 31

/-- Python whitespace for `str.strip()` (ASCII subset; the upstream API
never sends exotic unicode whitespace in dates). -/
def isPySpace (c : Char) : Bool :=
  c = ' ' || c = '\t' || c = '\n' || c = '\r' ||
  c = Char.ofNat 11 || c = Char.ofNat 12

/-- Split a character list at every hyphen (the semantics of
`s.split('-')` / `splitOn "-"`, reimplemented structurally). -/
def splitDash : List Char → List (List Char)
  | [] => [[]]
  | c :: cs =>
      if c = '-' then [] :: splitDash cs
      else
        match splitDash cs with
        | [] => [[c]]
        | g :: gs => (c :: g) :: gs

/-- Decimal value of a digit list (most significant first). -/
def digitsValAux : Nat → List Char → Nat
  | acc, [] => acc
  | acc, c :: cs => digitsValAux (acc * 10 + (c.toNat - 48)) cs

/-- `datetime.strptime(s, '%Y-%m-%d')` (utils.py line 70): `%Y` matches
exactly four digits, `%m` one or two digits in 1..12, `%d` one or two digits
in 1..31, separated by literal hyphens with the whole string consumed; the
day must then exist in the month or `date()` raises.  Any failure is caught
locally (`except (ValueError, TypeError)`) and yields an absent date, so the
model returns an `Option`. -/
def parseDateYMD (s : String) : Option PyDate :=
  match splitDash s.data with
  | [ys, ms, ds] =>
      if ys.length == 4 && ys.all Char.isDigit &&
         1 ≤ ms.length && ms.length ≤ 2 && ms.all Char.isDigit &&
         1 ≤ ds.length && ds.length ≤ 2 && ds.all Char.isDigit then
        let y := digitsValAux 0 ys
        let m := digitsValAux 0 ms
        let d := digitsValAux 0 ds
        if 1 ≤ m && m ≤ 12 && 1 ≤ d && d ≤ daysInMonth y m then
          some { year := y, month := m, day := d }
        else none
      else none
  | _ => none

/-- A stored `Movie` row (models.py lines 3-18), restricted to the columns
the pipeline writes.  Database-level column typing is abstracted: the store
accepts the values the Python code hands it (the claims never hinge on a
column-type rejection).  `created_at`/`updated_at` are not modelled. -/
structure Movie where
  tmdb_id : Json
  title : Json
  overview : Json
  release_date : Option PyDate
  poster_path : Json
  backdrop_path : Json
  vote_average : Int
  vote_count : Int
  genres : Json
deriving Repr, DecidableEq, Inhabited

/-- Title choice (utils.py line 62):
`tmdb_data.get('title') or tmdb_data.get('original_title', 'Unknown Title')`.
Python `or` yields the second operand whenever the first is falsy, and
`get(k, default)` yields the stored value whenever the key is present —
even a falsy one. -/
def titleValue (d : Json) : Json :=
  let t := d.pyGet "title"
  if t.truthy then t else d.pyGetD "original_title" (Json.str "Unknown Title")

/-- `title[:255]` (utils.py line 102): slicing is defined on strings and
lists and raises `TypeError` on every other value. -/
def slicedTitle : Json → Except PyExc Json
  | Json.str s => Except.ok (Json.str (s.take 255))
  | Json.arr xs => Except.ok (Json.arr (xs.take 255))
  | _ => Except.error PyExc.typeError

/-- Release-date handling (utils.py lines 66-73).  The guard
`if release_date_str and release_date_str.strip():` calls `.strip()` on the
value whenever it is truthy, which raises `AttributeError` for truthy
non-strings; that exception is NOT in the local `except (ValueError,
TypeError)` clause and escapes to the function-level catch-all.  A falsy
value or an all-whitespace string skips parsing; a parse failure is caught
locally and leaves the date absent. -/
def extractReleaseDate (d : Json) : Except PyExc (Option PyDate) :=
  let rds := d.pyGet "release_date"
  if rds.truthy then
    match rds with
    | Json.str s =>
        if s.data.all isPySpace then Except.ok none
        else Except.ok (parseDateYMD s)
    | _ => Except.error PyExc.attributeError
  else Except.ok none

/-- The filter inside the genre comprehension (utils.py line 79):
keep `genre['name']` for elements that are dicts containing `'name'`. -/
def genreName : Json → Option Json
  | Json.obj kvs =>
      match (Json.obj kvs).lookup "name" with
      | some v => some v
      | none => none
  | _ => none

/-- Genre handling (utils.py lines 76-82).  `if 'genres' in tmdb_data and
tmdb_data['genres']:` iterates the value: over a list it filters genre
objects carrying a name; iterating a (truthy) string yields characters and a
dict yields keys, none of which pass the `isinstance(genre, dict)` filter,
so both produce `[]`; numbers and booleans are not iterable and raise
`TypeError` (escaping to the catch-all).  Otherwise a truthy `genre_ids`
value is taken verbatim, else the list stays empty. -/
def extractGenres (d : Json) : Except PyExc Json :=
  if (d.pyGet "genres").truthy then
    match d.pyGet "genres" with
    | Json.arr xs => Except.ok (Json.arr (xs.filterMap genreName))
    | Json.str _ => Except.ok (Json.arr [])
    | Json.obj _ => Except.ok (Json.arr [])
    | _ => Except.error PyExc.typeError
  else if (d.pyGet "genre_ids").truthy then
    Except.ok (d.pyGet "genre_ids")
  else
    Except.ok (Json.arr [])

/-- Field extraction of `get_or_create_movie` (utils.py lines 58-110): the
values handed to `Movie.objects.get_or_create` as lookup key and
`defaults`, or the exception that escapes to the catch-all.  Evaluation
order of the Python statements does not matter here because every escape
path collapses to the same `(None, False)` result. -/
def normalizeFields (d : Json) : Except PyExc Movie :=
  match extractReleaseDate d with
  | Except.error e => Except.error e
  | Except.ok rd =>
    match extractGenres d with
    | Except.error e => Except.error e
    | Except.ok gs =>
      match slicedTitle (titleValue d) with
      | Except.error e => Except.error e
      | Except.ok t =>
          Except.ok
            { tmdb_id := d.pyGet "id"
              title := t
              overview := d.pyGetD "overview" (Json.str "")
              release_date := rd
              poster_path := d.pyGet "poster_path"
              backdrop_path := d.pyGet "backdrop_path"
              vote_average := pyFloatCoerce (d.pyGetD "vote_average" (Json.num 0))
              vote_count := pyIntCoerce (d.pyGetD "vote_count" (Json.num 0))
              genres := gs }

/-- The `Movie` table: rows in insertion order.  The `tmdb_id` column is
unique (models.py line 4), which the store operations preserve. -/
abbrev Store := List Movie

/-- `Movie.objects.get_or_create(tmdb_id=..., defaults=...)` (utils.py
lines 99-111): atomic find-or-insert on the unique `tmdb_id` key.  An
existing row is returned untouched with `created=False`; otherwise the
defaults are inserted and returned with `created=True`.  The database
uniqueness constraint serialises concurrent calls, so any interleaving of
two calls is one of the two sequential orders of this atomic step. -/
def store_get_or_create (fields : Movie) (s : Store) : (Movie × Bool) × Store :=
  match List.find? (fun m => m.tmdb_id == fields.tmdb_id) s with
  | some m => ((m, false), s)
  | none => ((fields, true), s ++ [fields])

/-- `k in v` on an arbitrary value (the membership test of utils.py line 54
and views.py line 51 among others): key membership on dicts, element
membership on lists, substring test on strings, `TypeError` on the rest. -/
def pyContains (v : Json) (k : String) : Except PyExc Bool :=
  match v with
  | Json.obj kvs => Except.ok ((Json.obj kvs).hasKey k)
  | Json.arr xs => Except.ok (xs.contains (Json.str k))
  | Json.str s => Except.ok ((s.splitOn k).length > 1)
  | _ => Except.error PyExc.typeError

/-- `get_or_create_movie` (utils.py lines 49-128), a fallible operation.
The guard at lines 54-56 short-circuits: a falsy input returns
`(None, False)` before any attribute access, and so does a truthy input
whose membership test `'id' not in tmdb_data` is true (a dict without the
key, but also a string or list not containing `"id"`).  A truthy dict with
the key proceeds; any exception raised by field extraction is caught by
the handlers at lines 120-128, whose log f-string evaluates
`tmdb_data.get('title', 'Unknown')` — fine on a dict — so those calls
return `(None, False)` with the store untouched.  A truthy non-dict has no
such safety net: the membership test on a number or bool raises
`TypeError`, and a string or list that does contain `"id"` raises
`TypeError` at the subscript `tmdb_data['id']` (line 58); either lands in
`except Exception`, where the log f-string calls `.get` on the non-dict
and itself raises `AttributeError` — the exception propagates to the
caller. -/
def get_or_create_movie (tmdb_data : Json) (s : Store) :
    Except PyExc ((Option Movie × Bool) × Store) :=
  if !tmdb_data.truthy then Except.ok ((none, false), s)
  else
    match pyContains tmdb_data "id" with
    | Except.error _ => Except.error PyExc.attributeError
    | Except.ok false => Except.ok ((none, false), s)
    | Except.ok true =>
        match tmdb_data with
        | Json.obj kvs =>
            match normalizeFields (Json.obj kvs) with
            | Except.error _ => Except.ok ((none, false), s)
            | Except.ok fields =>
                let r := store_get_or_create fields s
                Except.ok ((some r.1.1, r.1.2), r.2)
        | _ => Except.error PyExc.attributeError

/-- The possible outcomes of one HTTP round trip to TMDb, as distinguished
by the `except` clauses of `fetch_movies_from_tmdb` (utils.py lines
21-47). -/
inductive FetchOutcome where
  | success (body : Json)
  | timeout
  | httpStatus (code : Nat)
  | connectionError
  | requestError
  | decodeError
  | unexpectedError
deriving Repr, DecidableEq

/-- `fetch_movies_from_tmdb` (utils.py lines 11-47): returns the decoded
JSON body on success and `None` on every failure class — each `except`
branch logs a distinct message but returns the same `None`. -/
def fetch_movies_from_tmdb : FetchOutcome → Option Json
  | FetchOutcome.success body => some body
  | FetchOutcome.timeout => none
  | FetchOutcome.httpStatus _ => none
  | FetchOutcome.connectionError => none
  | FetchOutcome.requestError => none
  | FetchOutcome.decodeError => none
  | FetchOutcome.unexpectedError => none

/-- `v[k]` with a string subscript: only dicts support it (`KeyError` when
the key is absent), everything else raises `TypeError`. -/
def pySubscript (v : Json) (k : String) : Except PyExc Json :=
  match v with
  | Json.obj kvs =>
      match (Json.obj kvs).lookup k with
      | some x => Except.ok x
      | none => Except.error PyExc.keyError
  | _ => Except.error PyExc.typeError

/-- `for x in v`: lists yield elements, strings yield one-character strings,
dicts yield their keys, other values raise `TypeError`. -/
def pyIterate : Json → Except PyExc (List Json)
  | Json.arr xs => Except.ok xs
  | Json.str s => Except.ok (s.toList.map (fun ch => Json.str (String.mk [ch])))
  | Json.obj kvs => Except.ok (kvs.map (fun kv => Json.str kv.1))
  | _ => Except.error PyExc.typeError

/-- `release_date` rendering of DRF's `DateField` (`YYYY-MM-DD`, zero
padded) for serialization. -/
def serializeDate : Option PyDate → Json
  | none => Json.null
  | some d =>
      let pad2 := fun (n : Nat) => if n < 10 then "0" ++ toString n else toString n
      let pad4 := fun (n : Nat) =>
        if n < 10 then "000" ++ toString n
        else if n < 100 then "00" ++ toString n
        else if n < 1000 then "0" ++ toString n
        else toString n
      Json.str (pad4 d.year ++ "-" ++ pad2 d.month ++ "-" ++ pad2 d.day)

/-- `MovieSerializer(movie).data` (serializers.py lines 4-29), restricted to
the modelled columns.  The database-assigned `id`/`created_at`/`updated_at`
are outside the model; the declared `full_poster_url`/`full_backdrop_url`
read-only fields resolve to attributes the model class does not define
(models.py names them `poster_url`/`backdrop_url`), so DRF's
`Field.get_attribute` raises `SkipField` for these non-required read-only
fields and they are silently omitted from the output. -/
def serializeMovie (m : Movie) : Json :=
  Json.obj
    [("tmdb_id", m.tmdb_id),
     ("title", m.title),
     ("overview", m.overview),
     ("release_date", serializeDate m.release_date),
     ("poster_path", m.poster_path),
     ("backdrop_path", m.backdrop_path),
     ("vote_average", Json.num m.vote_average),
     ("vote_count", Json.num m.vote_count),
     ("genres", m.genres)]

/-- Result of the per-item normalize-and-store loop of a list view. -/
structure BatchResult where
  movies : List Json
  processed : Nat
  failed : Nat
  store : Store
deriving Repr, DecidableEq

/-- The trending view's per-item loop (views.py lines 70-82): each item is
passed to `get_or_create_movie` inside a per-item `try/except`, so an item
that makes `get_or_create_movie` raise is caught at lines 80-82, counted
as failed, and the loop continues; a returned movie is serialized and
appended, and a returned `None` is likewise counted as failed. -/
def processBatch : List Json → Store → BatchResult
  | [], s => { movies := [], processed := 0, failed := 0, store := s }
  | item :: rest, s =>
      match get_or_create_movie item s with
      | Except.error _ =>
          let b := processBatch rest s
          { movies := b.movies
            processed := b.processed
            failed := b.failed + 1
            store := b.store }
      | Except.ok r1 =>
          let b := processBatch rest r1.2
          match r1.1.1 with
          | some m =>
              { movies := serializeMovie m :: b.movies
                processed := b.processed + 1
                failed := b.failed
                store := b.store }
          | none =>
              { movies := b.movies
                processed := b.processed
                failed := b.failed + 1
                store := b.store }

/-- The unguarded per-item loop of the search and popular (and top-rated /
upcoming) views (views.py lines 161-165, 313-317): there is no per-item
`try`, so an item that makes `get_or_create_movie` raise aborts the loop —
the exception (together with the store as mutated so far) propagates to
the view's catch-all.  A returned `None` is simply skipped; these views
keep no counters. -/
def processBatchStrict : List Json → Store →
    Except (PyExc × Store) (List Json × Store)
  | [], s => Except.ok ([], s)
  | item :: rest, s =>
      match get_or_create_movie item s with
      | Except.error e => Except.error (e, s)
      | Except.ok r1 =>
          match processBatchStrict rest r1.2 with
          | Except.error es => Except.error es
          | Except.ok ms =>
              match r1.1.1 with
              | some m => Except.ok (serializeMovie m :: ms.1, ms.2)
              | none => Except.ok (ms.1, ms.2)

/-- The response cache (`django.core.cache`): entries keyed by string, each
carrying its payload and the TTL in seconds it was stored with.  An entry
being present models it being within its TTL window. -/
abbrev Cache := List (String × Json × Nat)

/-- `cache.get(key)`: `None` (here `Option.none`) when absent or expired. -/
def cacheGet (c : Cache) (k : String) : Option Json :=
  (c.find? (fun e => e.1 == k)).map (fun e => e.2.1)

/-- `cache.set(key, value, timeout)`: unconditional overwrite. -/
def cacheSet (c : Cache) (k : String) (v : Json) (ttl : Nat) : Cache :=
  (k, v, ttl) :: c.filter (fun e => e.1 != k)

/-- The `cached_data = cache.get(key); if cached_data:` idiom of every view:
a hit requires the cached payload to be truthy (a cached falsy payload
behaves like a miss). -/
def hitPayload (c : Cache) (k : String) : Option Json :=
  match cacheGet c k with
  | some p => if p.truthy then some p else none
  | none => none

/-- One view invocation's observable outcome: HTTP status and body, the
cache and store afterwards, and whether the upstream client was called. -/
structure ViewResult where
  status : Nat
  body : Json
  cache : Cache
  store : Store
  upstreamCalled : Bool
deriving Repr, DecidableEq

/-- Body of `{'error': msg}` responses. -/
def errorBody (msg : String) : Json := Json.obj [("error", Json.str msg)]

/-- `get_trending_movies` (views.py lines 29-120), as a function of the
cache, store and upstream outcome (`fetch_movies_from_tmdb` already applied
to the outcome).  Exceptions raised inside the `try` block are caught at
lines 115-120 and become a plain 500; the debug `sample_movie` field of the
all-failed body is modelled as the first iterated item (for the exotic
dict-shaped `results` value the real code would instead raise `KeyError`
into the catch-all — still a 500, with a different body). -/
def get_trending_movies (c : Cache) (s : Store) (upstream : Option Json) :
    ViewResult :=
  match hitPayload c "trending_movies" with
  | some p => { status := 200, body := p, cache := c, store := s, upstreamCalled := false }
  | none =>
    let unavailable := fun (msg dbg : String) =>
      { status := 503
        body := Json.obj [("error", Json.str msg), ("debug", Json.str dbg)]
        cache := c, store := s, upstreamCalled := true : ViewResult }
    let internal :=
      { status := 500, body := errorBody "Internal server error"
        cache := c, store := s, upstreamCalled := true : ViewResult }
    match upstream with
    | none => unavailable "TMDb API returned no data" "API call failed completely"
    | some data =>
      if !data.truthy then
        unavailable "TMDb API returned no data" "API call failed completely"
      else
        match pyContains data "results" with
        | Except.error _ => internal
        | Except.ok false => unavailable "Unexpected data format from TMDb" "keys"
        | Except.ok true =>
          match pySubscript data "results" with
          | Except.error _ => internal
          | Except.ok results =>
            if !results.truthy then
              { status := 404
                body := Json.obj [("error", Json.str "No trending movies available"),
                                  ("debug", Json.str "Empty results array")]
                cache := c, store := s, upstreamCalled := true }
            else
              match pyIterate results with
              | Except.error _ => internal
              | Except.ok items =>
                let b := processBatch items s
                if b.movies.isEmpty then
                  { status := 500
                    body := Json.obj
                      [("error", Json.str "Movie processing failed"),
                       ("debug", Json.obj
                         [("total_movies", Json.num (items.length : Int)),
                          ("processed", Json.num (b.processed : Int)),
                          ("failed", Json.num (b.failed : Int)),
                          ("sample_movie", items.headD Json.null)])]
                    cache := c, store := b.store, upstreamCalled := true }
                else
                  { status := 200
                    body := Json.obj
                      [("results", Json.arr b.movies),
                       ("metadata", Json.obj
                         [("total_processed", Json.num (b.processed : Int)),
                          ("total_failed", Json.num (b.failed : Int)),
                          ("source", Json.str "TMDb API"),
                          ("cached", Json.bool false)])]
                    cache := cacheSet c "trending_movies" (Json.arr b.movies) 3600
                    store := b.store, upstreamCalled := true }

/-- `search_movies` (views.py lines 122-185).  `query` is the `q` request
parameter (a string, possibly empty) and `page` the `page` parameter
(`Json.num 1` by default, a `Json.str` when supplied).  The storage loop
has no per-item `try`: an item that makes `get_or_create_movie` raise
aborts into the view catch-all (500, cache untouched, store as mutated so
far).  `int(page)` at line 171 is evaluated while the response dict is
built — after the storage loop and before `cache.set` — and a failure
there escapes to the catch-all too. -/
def search_movies (query : String) (page : Json) (c : Cache) (s : Store)
    (upstream : Option Json) : ViewResult :=
  if query == "" then
    { status := 400, body := errorBody "Query parameter is required"
      cache := c, store := s, upstreamCalled := false }
  else
    let key := "movie_search_" ++ query ++ "_page_" ++ pyStr page
    match hitPayload c key with
    | some p => { status := 200, body := p, cache := c, store := s, upstreamCalled := false }
    | none =>
      let internal := fun (st : Store) =>
        { status := 500, body := errorBody "Internal server error"
          cache := c, store := st, upstreamCalled := true : ViewResult }
      match upstream with
      | none =>
        { status := 503, body := errorBody "Search API unavailable"
          cache := c, store := s, upstreamCalled := true }
      | some data =>
        if !data.truthy then
          { status := 503, body := errorBody "Search API unavailable"
            cache := c, store := s, upstreamCalled := true }
        else
          match pyContains data "results" with
          | Except.error _ => internal s
          | Except.ok false =>
            { status := 503, body := errorBody "Unexpected search response format"
              cache := c, store := s, upstreamCalled := true }
          | Except.ok true =>
            match pySubscript data "results" with
            | Except.error _ => internal s
            | Except.ok results =>
              match pyIterate results with
              | Except.error _ => internal s
              | Except.ok items =>
                match processBatchStrict items s with
                | Except.error es => internal es.2
                | Except.ok bs =>
                  match pyIntStrict page with
                  | Except.error _ => internal bs.2
                  | Except.ok pg =>
                    let responseData := Json.obj
                      [("results", Json.arr bs.1),
                       ("total_results", data.pyGetD "total_results" (Json.num 0)),
                       ("total_pages", data.pyGetD "total_pages" (Json.num 1)),
                       ("current_page", Json.num pg),
                       ("query", Json.str query)]
                    { status := 200, body := responseData
                      cache := cacheSet c key responseData 1800
                      store := bs.2, upstreamCalled := true }

/-- `get_popular_movies` (views.py lines 298-336): the terse variant of the
pipeline — any fetched truthy body containing a `results` key is processed
and cached unconditionally, with no empty-results or all-failed check. -/
def get_popular_movies (c : Cache) (s : Store) (upstream : Option Json) :
    ViewResult :=
  match hitPayload c "popular_movies" with
  | some p => { status := 200, body := p, cache := c, store := s, upstreamCalled := false }
  | none =>
    let failed :=
      { status := 503, body := errorBody "Failed to fetch popular movies"
        cache := c, store := s, upstreamCalled := true : ViewResult }
    let internal := fun (st : Store) =>
      { status := 500, body := errorBody "Internal server error"
        cache := c, store := st, upstreamCalled := true : ViewResult }
    match upstream with
    | none => failed
    | some data =>
      if !data.truthy then failed
      else
        match pyContains data "results" with
        | Except.error _ => internal s
        | Except.ok false => failed
        | Except.ok true =>
          match pySubscript data "results" with
          | Except.error _ => internal s
          | Except.ok results =>
            match pyIterate results with
            | Except.error _ => internal s
            | Except.ok items =>
              match processBatchStrict items s with
              | Except.error es => internal es.2
              | Except.ok bs =>
                let responseData := Json.obj
                  [("results", Json.arr bs.1),
                   ("total_results", data.pyGetD "total_results" (Json.num 0)),
                   ("total_pages", data.pyGetD "total_pages" (Json.num 1))]
                { status := 200, body := responseData
                  cache := cacheSet c "popular_movies" responseData 3600
                  store := bs.2, upstreamCalled := true }

/-! ## Basic lemmas about the embedded primitives -/

/-- Success test on the normalization result. -/
def isOkB : Except PyExc Movie → Bool
  | Except.ok _ => true
  | Except.error _ => false

/-- A raw item succeeds normalization-and-storage iff it has an identity
key and field extraction does not raise.  This is a property of the item
alone: the store contents never decide per-item success. -/
def item_ok (d : Json) : Bool := d.hasKey "id" && isOkB (normalizeFields d)

theorem Json.hasKey_truthy {d : Json} {k : String} (h : d.hasKey k = true) :
    d.truthy = true := by
  cases d with
  | obj kvs =>
      cases kvs with
      | nil => simp [Json.hasKey, Json.lookup] at h
      | cons a l => simp [Json.truthy]
  | null => simp [Json.hasKey, Json.lookup] at h
  | bool b => simp [Json.hasKey, Json.lookup] at h
  | num n => simp [Json.hasKey, Json.lookup] at h
  | str s => simp [Json.hasKey, Json.lookup] at h
  | arr xs => simp [Json.hasKey, Json.lookup] at h

theorem beq_self_json (a : Json) : (a == a) = true := by
  show decide (a = a) = true
  simp

theorem cacheGet_cacheSet (c : Cache) (k : String) (v : Json) (t : Nat) :
    cacheGet (cacheSet c k v t) k = some v := by
  simp [cacheGet, cacheSet, List.find?]

theorem hitPayload_cacheSet (c : Cache) (k : String) (v : Json) (t : Nat)
    (hv : v.truthy = true) : hitPayload (cacheSet c k v t) k = some v := by
  simp [hitPayload, cacheGet_cacheSet, hv]

theorem Json.hasKey_obj {d : Json} {k : String} (h : d.hasKey k = true) :
    ∃ kvs, d = Json.obj kvs := by
  cases d with
  | obj kvs => exact ⟨kvs, rfl⟩
  | null => simp [Json.hasKey, Json.lookup] at h
  | bool b => simp [Json.hasKey, Json.lookup] at h
  | num n => simp [Json.hasKey, Json.lookup] at h
  | str s => simp [Json.hasKey, Json.lookup] at h
  | arr xs => simp [Json.hasKey, Json.lookup] at h

/-- A raw item makes `get_or_create_movie` raise exactly when it is truthy
and not a dict, while its `'id'` membership test either itself raises
(numbers, booleans) or succeeds positively (strings/lists containing
`"id"`, which then fail at the subscript): the except-handler's log
f-string then raises `AttributeError` on the non-dict.  This is a property
of the item alone, independent of the store. -/
def item_raises (d : Json) : Bool :=
  if !d.truthy then false
  else
    match pyContains d "id" with
    | Except.error _ => true
    | Except.ok false => false
    | Except.ok true =>
        match d with
        | Json.obj _ => false
        | _ => true

theorem item_raises_obj (kvs : List (String × Json)) :
    item_raises (Json.obj kvs) = false := by
  unfold item_raises
  cases ht : (Json.obj kvs).truthy with
  | false => simp [ht]
  | true =>
      cases hk : (Json.obj kvs).hasKey "id" with
      | true => simp [ht, pyContains, hk]
      | false => simp [ht, pyContains, hk]

theorem item_ok_false {d : Json} (h : ¬ item_ok d = true) :
    item_ok d = false := by
  cases hx : item_ok d with
  | true => exact absurd hx h
  | false => rfl

theorem item_raises_false {d : Json} (h : ¬ item_raises d = true) :
    item_raises d = false := by
  cases hx : item_raises d with
  | true => exact absurd hx h
  | false => rfl

theorem item_ok_no_raise {d : Json} (h : item_ok d = true) :
    item_raises d = false := by
  simp only [item_ok, Bool.and_eq_true] at h
  obtain ⟨hk, _⟩ := h
  obtain ⟨kvs, rfl⟩ := Json.hasKey_obj hk
  exact item_raises_obj kvs

theorem item_raises_of_ok {d : Json} (hx : item_ok d = true) :
    ¬ item_raises d = true := by
  rw [item_ok_no_raise hx]
  simp

theorem gocm_raise {d : Json} (s : Store) (h : item_raises d = true) :
    get_or_create_movie d s = Except.error PyExc.attributeError := by
  unfold item_raises at h
  unfold get_or_create_movie
  cases ht : d.truthy with
  | false => simp [ht] at h
  | true =>
      simp only [ht, Bool.not_true, Bool.false_eq_true, if_false] at h ⊢
      rcases hc : pyContains d "id" with e | b
      · rfl
      · rw [hc] at h
        cases b with
        | false => simp at h
        | true =>
            cases d with
            | obj kvs => simp at h
            | null => rfl
            | bool b2 => rfl
            | num n => rfl
            | str s2 => rfl
            | arr xs => rfl

theorem gocm_fail {d : Json} (s : Store) (hr : item_raises d = false)
    (h : item_ok d = false) :
    get_or_create_movie d s = Except.ok ((none, false), s) := by
  unfold item_raises at hr
  unfold get_or_create_movie
  cases ht : d.truthy with
  | false => rfl
  | true =>
      simp only [ht, Bool.not_true, Bool.false_eq_true, if_false] at hr ⊢
      rcases hc : pyContains d "id" with e | b
      · rw [hc] at hr
        simp at hr
      · rw [hc] at hr
        cases b with
        | false => rfl
        | true =>
            cases d with
            | obj kvs =>
                have hk : (Json.obj kvs).hasKey "id" = true := by
                  simp [pyContains] at hc
                  exact hc
                rcases hne : normalizeFields (Json.obj kvs) with e2 | f
                · simp [hne]
                · exfalso
                  simp [item_ok, hk, hne, isOkB] at h
            | null => simp at hr
            | bool b2 => simp at hr
            | num n => simp at hr
            | str s2 => simp at hr
            | arr xs => simp at hr

theorem gocm_ok {d : Json} (s : Store) (h : item_ok d = true) :
    ∃ fields, normalizeFields d = Except.ok fields ∧
      get_or_create_movie d s = Except.ok
        ((some (store_get_or_create fields s).1.1,
          (store_get_or_create fields s).1.2),
         (store_get_or_create fields s).2) := by
  simp only [item_ok, Bool.and_eq_true] at h
  obtain ⟨hk, hok⟩ := h
  cases d with
  | obj kvs =>
      rcases hne : normalizeFields (Json.obj kvs) with e | f
      · rw [hne] at hok
        simp [isOkB] at hok
      · refine ⟨f, rfl, ?_⟩
        simp [get_or_create_movie, Json.hasKey_truthy hk, pyContains, hk, hne]
  | null => simp [Json.hasKey, Json.lookup] at hk
  | bool b => simp [Json.hasKey, Json.lookup] at hk
  | num n => simp [Json.hasKey, Json.lookup] at hk
  | str s2 => simp [Json.hasKey, Json.lookup] at hk
  | arr xs => simp [Json.hasKey, Json.lookup] at hk

theorem normalizeFields_parts {d : Json} {f : Movie}
    (h : normalizeFields d = Except.ok f) :
    extractReleaseDate d = Except.ok f.release_date ∧
    extractGenres d = Except.ok f.genres ∧
    slicedTitle (titleValue d) = Except.ok f.title ∧
    f.tmdb_id = d.pyGet "id" ∧
    f.overview = d.pyGetD "overview" (Json.str "") := by
  unfold normalizeFields at h
  rcases h1 : extractReleaseDate d with e | rd <;> rw [h1] at h
  · cases h
  rcases h2 : extractGenres d with e | gs <;> rw [h2] at h
  · cases h
  rcases h3 : slicedTitle (titleValue d) with e | t <;> rw [h3] at h
  · cases h
  injection h with h4
  subst h4
  exact ⟨rfl, rfl, rfl, rfl, rfl⟩

theorem processBatch_movies_length (items : List Json) : ∀ (s : Store),
    (processBatch items s).movies.length =
      items.countP (fun d => item_ok d) := by
  induction items with
  | nil => intro s; rfl
  | cons d rest ih =>
      intro s
      by_cases hr : item_raises d = true
      · have hok : item_ok d = false := by
          cases hx : item_ok d with
          | true => exact absurd hr (item_raises_of_ok hx)
          | false => rfl
        simp [processBatch, gocm_raise s hr, List.countP_cons, hok, ih]
      · by_cases h : item_ok d = true
        · obtain ⟨f, hf, he⟩ := gocm_ok s h
          simp [processBatch, he, List.countP_cons, h, ih]
        · simp [processBatch,
            gocm_fail s (item_raises_false hr) (item_ok_false h),
            List.countP_cons, item_ok_false h, ih]

theorem processBatch_processed (items : List Json) : ∀ (s : Store),
    (processBatch items s).processed =
      items.countP (fun d => item_ok d) := by
  induction items with
  | nil => intro s; rfl
  | cons d rest ih =>
      intro s
      by_cases hr : item_raises d = true
      · have hok : item_ok d = false := by
          cases hx : item_ok d with
          | true => exact absurd hr (item_raises_of_ok hx)
          | false => rfl
        simp [processBatch, gocm_raise s hr, List.countP_cons, hok, ih]
      · by_cases h : item_ok d = true
        · obtain ⟨f, hf, he⟩ := gocm_ok s h
          simp [processBatch, he, List.countP_cons, h, ih]
        · simp [processBatch,
            gocm_fail s (item_raises_false hr) (item_ok_false h),
            List.countP_cons, item_ok_false h, ih]

theorem processBatch_failed (items : List Json) : ∀ (s : Store),
    (processBatch items s).failed =
      items.countP (fun d => !(item_ok d)) := by
  induction items with
  | nil => intro s; rfl
  | cons d rest ih =>
      intro s
      by_cases hr : item_raises d = true
      · have hok : item_ok d = false := by
          cases hx : item_ok d with
          | true => exact absurd hr (item_raises_of_ok hx)
          | false => rfl
        simp [processBatch, gocm_raise s hr, List.countP_cons, hok, ih]
      · by_cases h : item_ok d = true
        · obtain ⟨f, hf, he⟩ := gocm_ok s h
          simp [processBatch, he, List.countP_cons, h, ih]
        · simp [processBatch,
            gocm_fail s (item_raises_false hr) (item_ok_false h),
            List.countP_cons, item_ok_false h, ih]

theorem processBatchStrict_no_raise (items : List Json) : ∀ (s : Store),
    (∀ d ∈ items, item_raises d = false) →
    processBatchStrict items s =
      Except.ok ((processBatch items s).movies,
        (processBatch items s).store) := by
  induction items with
  | nil => intro s _; rfl
  | cons d rest ih =>
      intro s h
      have hd : item_raises d = false := h d (by simp)
      have hrest : ∀ x ∈ rest, item_raises x = false :=
        fun x hx => h x (by simp [hx])
      by_cases hok : item_ok d = true
      · obtain ⟨f, hf, he⟩ := gocm_ok s hok
        simp [processBatchStrict, processBatch, he, ih _ hrest]
      · simp [processBatchStrict, processBatch,
          gocm_fail s hd (item_ok_false hok), ih _ hrest]

theorem processBatchStrict_raise_head (d : Json) (rest : List Json)
    (s : Store) (h : item_raises d = true) :
    processBatchStrict (d :: rest) s =
      Except.error (PyExc.attributeError, s) := by
  simp [processBatchStrict, gocm_raise s h]

/-! ## View-level characterization lemmas -/

theorem trending_cache_upstream_fail (c : Cache) (s : Store) :
    (get_trending_movies c s none).cache = c := by
  unfold get_trending_movies
  split
  · rfl
  · rfl

theorem search_cache_upstream_fail (q : String) (p : Json) (c : Cache)
    (s : Store) : (search_movies q p c s none).cache = c := by
  unfold search_movies
  split
  · rfl
  · dsimp only
    rcases hhit : hitPayload c ("movie_search_" ++ q ++ "_page_" ++ pyStr p)
        with _ | pl
    · rfl
    · rfl

theorem popular_cache_upstream_fail (c : Cache) (s : Store) :
    (get_popular_movies c s none).cache = c := by
  unfold get_popular_movies
  split
  · rfl
  · rfl

theorem trending_cache_char (c : Cache) (s : Store) (up : Option Json) :
    (get_trending_movies c s up).cache = c ∨
    ((get_trending_movies c s up).status = 200 ∧
     ∃ ms, ms ≠ [] ∧
       (get_trending_movies c s up).cache =
         cacheSet c "trending_movies" (Json.arr ms) 3600) := by
  unfold get_trending_movies
  split
  · exact Or.inl rfl
  · dsimp only
    split
    · exact Or.inl rfl
    · split
      · exact Or.inl rfl
      · split
        · exact Or.inl rfl
        · exact Or.inl rfl
        · split
          · exact Or.inl rfl
          · split
            · exact Or.inl rfl
            · split
              · exact Or.inl rfl
              next items hiter =>
                split
                next => exact Or.inl rfl
                next hne =>
                  refine Or.inr ⟨rfl, (processBatch items s).movies, ?_, rfl⟩
                  intro hnil
                  rw [hnil] at hne
                  simp at hne

theorem search_cache_char (q : String) (page : Json) (c : Cache) (s : Store)
    (up : Option Json) :
    (search_movies q page c s up).cache = c ∨
    ((search_movies q page c s up).status = 200 ∧
     ∃ pl, (search_movies q page c s up).cache =
       cacheSet c ("movie_search_" ++ q ++ "_page_" ++ pyStr page) pl 1800) := by
  unfold search_movies
  split
  · exact Or.inl rfl
  · dsimp only
    rcases hhit : hitPayload c ("movie_search_" ++ q ++ "_page_" ++ pyStr page)
        with _ | pl
    case some => exact Or.inl rfl
    case none =>
      rcases up with _ | data
      · exact Or.inl rfl
      · dsimp only
        split
        · exact Or.inl rfl
        · split
          · exact Or.inl rfl
          · exact Or.inl rfl
          · split
            · exact Or.inl rfl
            · split
              · exact Or.inl rfl
              · split
                · exact Or.inl rfl
                · split
                  · exact Or.inl rfl
                  · exact Or.inr ⟨rfl, _, rfl⟩

theorem popular_cache_char (c : Cache) (s : Store) (up : Option Json) :
    (get_popular_movies c s up).cache = c ∨
    ((get_popular_movies c s up).status = 200 ∧
     ∃ pl, (get_popular_movies c s up).cache =
       cacheSet c "popular_movies" pl 3600) := by
  unfold get_popular_movies
  split
  · exact Or.inl rfl
  · dsimp only
    rcases up with _ | data
    · exact Or.inl rfl
    · dsimp only
      split
      · exact Or.inl rfl
      · split
        · exact Or.inl rfl
        · exact Or.inl rfl
        · split
          · exact Or.inl rfl
          · split
            · exact Or.inl rfl
            · split
              · exact Or.inl rfl
              · exact Or.inr ⟨rfl, _, rfl⟩

theorem trending_success (c : Cache) (s : Store) (kvs : List (String × Json))
    (items : List Json)
    (hmiss : hitPayload c "trending_movies" = none)
    (hres : (Json.obj kvs).lookup "results" = some (Json.arr items))
    (hne : items ≠ []) (hsome : (processBatch items s).movies ≠ []) :
    get_trending_movies c s (some (Json.obj kvs)) =
      { status := 200
        body := Json.obj
          [("results", Json.arr (processBatch items s).movies),
           ("metadata", Json.obj
             [("total_processed", Json.num ((processBatch items s).processed : Int)),
              ("total_failed", Json.num ((processBatch items s).failed : Int)),
              ("source", Json.str "TMDb API"),
              ("cached", Json.bool false)])]
        cache := cacheSet c "trending_movies"
          (Json.arr (processBatch items s).movies) 3600
        store := (processBatch items s).store
        upstreamCalled := true } := by
  have hk : (Json.obj kvs).hasKey "results" = true := by
    simp [Json.hasKey, hres]
  have ht : (Json.obj kvs).truthy = true := Json.hasKey_truthy hk
  have hc : pyContains (Json.obj kvs) "results" = Except.ok true := by
    simp [pyContains, hk]
  have hsub : pySubscript (Json.obj kvs) "results" = Except.ok (Json.arr items) := by
    simp [pySubscript, hres]
  have htr : (Json.arr items).truthy = true := by
    simp [Json.truthy, hne]
  have hie : (processBatch items s).movies.isEmpty = false := by
    simp [List.isEmpty_iff, hsome]
  unfold get_trending_movies
  rw [hmiss]
  simp only [ht, hc, hsub, htr, pyIterate, hie, Bool.not_true, Bool.false_eq_true,
    if_false, Bool.ite_eq_true_distrib]

theorem trending_allfail (c : Cache) (s : Store) (kvs : List (String × Json))
    (items : List Json)
    (hmiss : hitPayload c "trending_movies" = none)
    (hres : (Json.obj kvs).lookup "results" = some (Json.arr items))
    (hne : items ≠ []) (hnone : (processBatch items s).movies = []) :
    get_trending_movies c s (some (Json.obj kvs)) =
      { status := 500
        body := Json.obj
          [("error", Json.str "Movie processing failed"),
           ("debug", Json.obj
             [("total_movies", Json.num (items.length : Int)),
              ("processed", Json.num ((processBatch items s).processed : Int)),
              ("failed", Json.num ((processBatch items s).failed : Int)),
              ("sample_movie", items.headD Json.null)])]
        cache := c
        store := (processBatch items s).store
        upstreamCalled := true } := by
  have hk : (Json.obj kvs).hasKey "results" = true := by
    simp [Json.hasKey, hres]
  have ht : (Json.obj kvs).truthy = true := Json.hasKey_truthy hk
  have hc : pyContains (Json.obj kvs) "results" = Except.ok true := by
    simp [pyContains, hk]
  have hsub : pySubscript (Json.obj kvs) "results" = Except.ok (Json.arr items) := by
    simp [pySubscript, hres]
  have htr : (Json.arr items).truthy = true := by
    simp [Json.truthy, hne]
  have hie : (processBatch items s).movies.isEmpty = true := by
    simp [List.isEmpty_iff, hnone]
  unfold get_trending_movies
  rw [hmiss]
  simp only [ht, hc, hsub, htr, pyIterate, hie, Bool.not_true, Bool.false_eq_true,
    if_false, if_true]

theorem search_success (q : String) (page : Json) (pg : Int) (c : Cache)
    (s : Store) (kvs : List (String × Json)) (items : List Json)
    (hq : (q == "") = false)
    (hmiss : hitPayload c ("movie_search_" ++ q ++ "_page_" ++ pyStr page) = none)
    (hres : (Json.obj kvs).lookup "results" = some (Json.arr items))
    (hnr : ∀ d ∈ items, item_raises d = false)
    (hpg : pyIntStrict page = Except.ok pg) :
    search_movies q page c s (some (Json.obj kvs)) =
      { status := 200
        body := Json.obj
          [("results", Json.arr (processBatch items s).movies),
           ("total_results", (Json.obj kvs).pyGetD "total_results" (Json.num 0)),
           ("total_pages", (Json.obj kvs).pyGetD "total_pages" (Json.num 1)),
           ("current_page", Json.num pg),
           ("query", Json.str q)]
        cache := cacheSet c ("movie_search_" ++ q ++ "_page_" ++ pyStr page)
          (Json.obj
            [("results", Json.arr (processBatch items s).movies),
             ("total_results", (Json.obj kvs).pyGetD "total_results" (Json.num 0)),
             ("total_pages", (Json.obj kvs).pyGetD "total_pages" (Json.num 1)),
             ("current_page", Json.num pg),
             ("query", Json.str q)]) 1800
        store := (processBatch items s).store
        upstreamCalled := true } := by
  have hk : (Json.obj kvs).hasKey "results" = true := by
    simp [Json.hasKey, hres]
  have ht : (Json.obj kvs).truthy = true := Json.hasKey_truthy hk
  have hc : pyContains (Json.obj kvs) "results" = Except.ok true := by
    simp [pyContains, hk]
  have hsub : pySubscript (Json.obj kvs) "results" = Except.ok (Json.arr items) := by
    simp [pySubscript, hres]
  unfold search_movies
  rw [hq]
  simp only [Bool.false_eq_true, if_false]
  rw [hmiss]
  simp only [ht, hc, hsub, hpg, pyIterate, processBatchStrict_no_raise items s hnr,
    Bool.not_true, Bool.false_eq_true, if_false]

theorem popular_success (c : Cache) (s : Store) (kvs : List (String × Json))
    (items : List Json)
    (hmiss : hitPayload c "popular_movies" = none)
    (hres : (Json.obj kvs).lookup "results" = some (Json.arr items))
    (hnr : ∀ d ∈ items, item_raises d = false) :
    get_popular_movies c s (some (Json.obj kvs)) =
      { status := 200
        body := Json.obj
          [("results", Json.arr (processBatch items s).movies),
           ("total_results", (Json.obj kvs).pyGetD "total_results" (Json.num 0)),
           ("total_pages", (Json.obj kvs).pyGetD "total_pages" (Json.num 1))]
        cache := cacheSet c "popular_movies"
          (Json.obj
            [("results", Json.arr (processBatch items s).movies),
             ("total_results", (Json.obj kvs).pyGetD "total_results" (Json.num 0)),
             ("total_pages", (Json.obj kvs).pyGetD "total_pages" (Json.num 1))]) 3600
        store := (processBatch items s).store
        upstreamCalled := true } := by
  have hk : (Json.obj kvs).hasKey "results" = true := by
    simp [Json.hasKey, hres]
  have ht : (Json.obj kvs).truthy = true := Json.hasKey_truthy hk
  have hc : pyContains (Json.obj kvs) "results" = Except.ok true := by
    simp [pyContains, hk]
  have hsub : pySubscript (Json.obj kvs) "results" = Except.ok (Json.arr items) := by
    simp [pySubscript, hres]
  unfold get_popular_movies
  rw [hmiss]
  simp only [ht, hc, hsub, pyIterate, processBatchStrict_no_raise items s hnr,
    Bool.not_true, Bool.false_eq_true, if_false]

/-! ## Concrete sample inputs used by counterexamples and witnesses -/

/-- A well-formed raw item: identity plus a title. -/
def sampleGoodItem : Json := Json.obj [("id", Json.num 1), ("title", Json.str "T")]

/-- Same external id as `sampleGoodItem` but different field values. -/
def sampleItemB : Json := Json.obj [("id", Json.num 1), ("title", Json.str "B")]

/-- The record `sampleGoodItem` normalizes to. -/
def sampleMovieT : Movie :=
  { tmdb_id := Json.num 1, title := Json.str "T", overview := Json.str ""
    release_date := none, poster_path := Json.null, backdrop_path := Json.null
    vote_average := 0, vote_count := 0, genres := Json.arr [] }

/-- A raw item with no identity field. -/
def sampleNoIdItem : Json := Json.obj [("title", Json.str "X")]

/-- Identity present, but a truthy non-list `genres` value (not iterable in
Python). -/
def sampleBadGenresItem : Json :=
  Json.obj [("id", Json.num 4), ("genres", Json.num 7)]

/-- Identity present, but a truthy non-string `release_date` value
(`.strip()` raises `AttributeError` in Python). -/
def sampleBadDateItem : Json :=
  Json.obj [("id", Json.num 3), ("title", Json.str "T"), ("release_date", Json.num 5)]

/-- Identity present, primary title absent, alternate title present but
empty. -/
def sampleEmptyOrigItem : Json :=
  Json.obj [("id", Json.num 10), ("original_title", Json.str "")]

/-- An upstream body whose `results` list is empty. -/
def emptyResultsBody : Json := Json.obj [("results", Json.arr [])]

/-- An upstream body with one well-formed item. -/
def singleGoodBody : Json := Json.obj [("results", Json.arr [sampleGoodItem])]

/-- An upstream body whose only item lacks the identity field. -/
def singleNoIdBody : Json := Json.obj [("results", Json.arr [sampleNoIdItem])]

/-- A parametric raw item with identity, title, and a release date value. -/
def mkMovieItem (idn : Int) (t : String) (rd : Json) : Json :=
  Json.obj [("id", Json.num idn), ("title", Json.str t), ("release_date", rd)]

/-! ## Claim theorems -/

/-- C9, counterexample.  The claim says the fetch layer returns a typed
failure signal letting the caller tell a timeout apart from an HTTP-status
failure; `fetch_movies_from_tmdb` returns the same `None` for both, so the
claimed distinction does not exist at the interface. -/
theorem c9_counterexample_failures_indistinguishable :
    fetch_movies_from_tmdb FetchOutcome.timeout =
      fetch_movies_from_tmdb (FetchOutcome.httpStatus 503) ∧
    fetch_movies_from_tmdb FetchOutcome.timeout = none ∧
    fetch_movies_from_tmdb FetchOutcome.connectionError = none ∧
    fetch_movies_from_tmdb FetchOutcome.decodeError = none :=
  ⟨rfl, rfl, rfl, rfl⟩

/-- C9 (amended): every upstream fetch returns the decoded body on success
and the single untyped sentinel `None` on every failure class — timeout,
HTTP status, connection, request, decode and unexpected errors are
indistinguishable at the return value (they differ only in the log). -/
theorem c9_amended_fetch_collapses_failures :
    (∀ b : Json, fetch_movies_from_tmdb (FetchOutcome.success b) = some b) ∧
    (∀ code : Nat, fetch_movies_from_tmdb (FetchOutcome.httpStatus code) = none) ∧
    fetch_movies_from_tmdb FetchOutcome.timeout = none ∧
    fetch_movies_from_tmdb FetchOutcome.connectionError = none ∧
    fetch_movies_from_tmdb FetchOutcome.requestError = none ∧
    fetch_movies_from_tmdb FetchOutcome.decodeError = none ∧
    fetch_movies_from_tmdb FetchOutcome.unexpectedError = none :=
  ⟨fun _ => rfl, fun _ => rfl, rfl, rfl, rfl, rfl, rfl⟩

/-- C10, counterexample.  The claim says the operation never propagates an
exception for any input, non-dict values included; for the truthy non-dict
input `5` the membership test `'id' not in tmdb_data` raises `TypeError`,
and the except-handler's log f-string then calls `.get` on the non-dict
and raises `AttributeError` itself — so `get_or_create_movie` propagates
an exception instead of returning `(None, False)`. -/
theorem c10_counterexample_nondict_raises :
    get_or_create_movie (Json.num 5) [] =
      Except.error PyExc.attributeError ∧
    (Json.num 5).truthy = true :=
  ⟨rfl, rfl⟩

/-- C10 (amended): for every dict input and every falsy input the
operation is total at its interface — it returns either a stored record
with its created flag or the pair `(None, False)` leaving the store
untouched, and no exception reaches the caller; but a truthy non-dict
input whose membership test raises (numbers, booleans) makes the
except-handler itself raise, and that exception propagates to the
caller. -/
theorem c10_amended_get_or_create_movie_total :
    (∀ (kvs : List (String × Json)) (s : Store),
        (∃ m created s2, get_or_create_movie (Json.obj kvs) s =
            Except.ok ((some m, created), s2)) ∨
        get_or_create_movie (Json.obj kvs) s =
          Except.ok ((none, false), s)) ∧
    (∀ (d : Json) (s : Store), d.truthy = false →
        get_or_create_movie d s = Except.ok ((none, false), s)) ∧
    (∀ (n : Int) (s : Store), n ≠ 0 →
        get_or_create_movie (Json.num n) s =
          Except.error PyExc.attributeError) ∧
    (∀ s : Store, get_or_create_movie (Json.bool true) s =
        Except.error PyExc.attributeError) := by
  refine ⟨?_, ?_, ?_, ?_⟩
  · intro kvs s
    by_cases h : item_ok (Json.obj kvs) = true
    · obtain ⟨f, hf, he⟩ := gocm_ok s h
      exact Or.inl ⟨_, _, _, he⟩
    · exact Or.inr (gocm_fail s (item_raises_obj kvs) (item_ok_false h))
  · intro d s h
    unfold get_or_create_movie
    simp [h]
  · intro n s hn
    refine gocm_raise s ?_
    simp [item_raises, Json.truthy, hn, pyContains]
  · intro s
    refine gocm_raise s ?_
    rfl

/-- C10 witness: the amended theorem at a falsy input (total, nothing
stored) and at the raising non-dict input `7`. -/
theorem c10_amended_get_or_create_movie_total_witness :
    get_or_create_movie Json.null [] = Except.ok ((none, false), []) ∧
    get_or_create_movie (Json.num 7) [] =
      Except.error PyExc.attributeError :=
  ⟨c10_amended_get_or_create_movie_total.2.1 Json.null [] rfl,
   c10_amended_get_or_create_movie_total.2.2.1 7 [] (by decide)⟩

/-- C4, counterexample.  The claim says a missing identity field is the only
hard per-item failure; `sampleBadGenresItem` carries an identity field yet
still hard-fails (truthy non-iterable `genres` raises `TypeError` into the
catch-all, which on a dict input returns `(None, False)`), so missing
identity is not the only hard failure. -/
theorem c4_counterexample_other_hard_failure :
    sampleBadGenresItem.hasKey "id" = true ∧
    get_or_create_movie sampleBadGenresItem [] =
      Except.ok ((none, false), []) :=
  ⟨rfl, rfl⟩

/-- C4 (amended): every dict item lacking the identity field (and every
falsy item) fails normalization with no record, is excluded from the
stored batch, and the trending loop continues unaffected; but missing
identity is not the only hard per-item failure: a dict item with identity
whose malformed field raises inside field extraction (for example a truthy
non-iterable `genres` value) fails the same way, and a truthy non-dict
item makes `get_or_create_movie` itself raise — the trending loop's
per-item handler absorbs that as one more failure and continues, while
the unguarded search/popular loops abort on it. -/
theorem c4_amended_missing_identity_policy :
    (∀ (kvs : List (String × Json)) (s : Store),
        (Json.obj kvs).hasKey "id" = false →
        get_or_create_movie (Json.obj kvs) s =
          Except.ok ((none, false), s)) ∧
    (∀ (d : Json) (s : Store), d.truthy = false →
        get_or_create_movie d s = Except.ok ((none, false), s)) ∧
    (∀ (d : Json) (rest : List Json) (s : Store),
        get_or_create_movie d s = Except.ok ((none, false), s) →
        processBatch (d :: rest) s =
          { movies := (processBatch rest s).movies
            processed := (processBatch rest s).processed
            failed := (processBatch rest s).failed + 1
            store := (processBatch rest s).store }) ∧
    (∀ (d : Json) (rest : List Json) (s : Store), item_raises d = true →
        processBatch (d :: rest) s =
          { movies := (processBatch rest s).movies
            processed := (processBatch rest s).processed
            failed := (processBatch rest s).failed + 1
            store := (processBatch rest s).store } ∧
        processBatchStrict (d :: rest) s =
          Except.error (PyExc.attributeError, s)) ∧
    (∀ s : Store, get_or_create_movie sampleBadGenresItem s =
        Except.ok ((none, false), s)) := by
  refine ⟨?_, ?_, ?_, ?_, ?_⟩
  · intro kvs s h
    refine gocm_fail s (item_raises_obj kvs) ?_
    simp [item_ok, h]
  · intro d s h
    unfold get_or_create_movie
    simp [h]
  · intro d rest s h
    simp [processBatch, h]
  · intro d rest s h
    exact ⟨by simp [processBatch, gocm_raise s h],
           processBatchStrict_raise_head d rest s h⟩
  · intro s
    refine gocm_fail s rfl ?_
    rfl

/-- C4 witness: the amended theorem applied to the item without an
identity field, to a two-item batch whose first item fails, and to a
two-item trending batch whose first item raises. -/
theorem c4_amended_missing_identity_policy_witness :
    get_or_create_movie sampleNoIdItem [] = Except.ok ((none, false), []) ∧
    processBatch [sampleNoIdItem, sampleGoodItem] [] =
      { movies := (processBatch [sampleGoodItem] []).movies
        processed := (processBatch [sampleGoodItem] []).processed
        failed := (processBatch [sampleGoodItem] []).failed + 1
        store := (processBatch [sampleGoodItem] []).store } ∧
    processBatch [Json.num 5, sampleGoodItem] [] =
      { movies := (processBatch [sampleGoodItem] []).movies
        processed := (processBatch [sampleGoodItem] []).processed
        failed := (processBatch [sampleGoodItem] []).failed + 1
        store := (processBatch [sampleGoodItem] []).store } :=
  ⟨c4_amended_missing_identity_policy.1 [("title", Json.str "X")] [] rfl,
   c4_amended_missing_identity_policy.2.2.1 sampleNoIdItem [sampleGoodItem] []
     (c4_amended_missing_identity_policy.1 [("title", Json.str "X")] [] rfl),
   (c4_amended_missing_identity_policy.2.2.2.1 (Json.num 5) [sampleGoodItem] []
     rfl).1⟩

/-- C6, counterexample.  The claim says any non-string `release_date`
results in a stored record with an absent date; `sampleBadDateItem` has an
identity field and a truthy non-string `release_date`, and the whole record
fails (`(None, False)`, nothing stored) instead of being stored with an
absent date. -/
theorem c6_counterexample_nonstring_date_fails_record :
    sampleBadDateItem.hasKey "id" = true ∧
    get_or_create_movie sampleBadDateItem [] =
      Except.ok ((none, false), []) :=
  ⟨rfl, rfl⟩

theorem gocm_create {d : Json} {f : Movie} (hk : d.hasKey "id" = true)
    (hnf : normalizeFields d = Except.ok f) (s : Store)
    (habs : List.find? (fun m => m.tmdb_id == f.tmdb_id) s = none) :
    get_or_create_movie d s = Except.ok ((some f, true), s ++ [f]) := by
  have hok : item_ok d = true := by simp [item_ok, hk, hnf, isOkB]
  obtain ⟨f2, hf2, he⟩ := gocm_ok s hok
  rw [hnf] at hf2
  injection hf2 with hf2
  subst hf2
  rw [he]
  simp [store_get_or_create, habs]

/-- C6 (amended): a falsy `release_date` value or a string that fails the
strict date parse yields a normalized record with an absent release date
and the record still succeeds; but a truthy non-string `release_date` is
not tolerated — `.strip()` raises and the whole record fails (caught,
returning no record and creating nothing), rather than being stored with an
absent date. -/
theorem c6_amended_release_date_policy :
    (∀ d : Json, (d.pyGet "release_date").truthy = false →
        extractReleaseDate d = Except.ok none) ∧
    (∀ (d : Json) (u : String), d.pyGet "release_date" = Json.str u →
        parseDateYMD u = none → extractReleaseDate d = Except.ok none) ∧
    (∀ (idn : Int) (t : String) (rd : Json), t ≠ "" →
        (rd.truthy = false ∨ ∃ u, rd = Json.str u ∧ parseDateYMD u = none) →
        ∃ f, normalizeFields (mkMovieItem idn t rd) = Except.ok f ∧
          f.release_date = none ∧
          get_or_create_movie (mkMovieItem idn t rd) [] =
            Except.ok ((some f, true), [f])) ∧
    (∀ (d : Json) (s : Store), d.hasKey "id" = true →
        (d.pyGet "release_date").truthy = true →
        (∀ u, d.pyGet "release_date" ≠ Json.str u) →
        get_or_create_movie d s = Except.ok ((none, false), s)) := by
  have part1 : ∀ d : Json, (d.pyGet "release_date").truthy = false →
      extractReleaseDate d = Except.ok none := by
    intro d h
    unfold extractReleaseDate
    simp [h]
  have part2 : ∀ (d : Json) (u : String), d.pyGet "release_date" = Json.str u →
      parseDateYMD u = none → extractReleaseDate d = Except.ok none := by
    intro d u hrd hp
    unfold extractReleaseDate
    rw [hrd]
    by_cases hu : (Json.str u).truthy = true
    · simp only [hu, if_true]
      by_cases hsp : u.data.all isPySpace = true
      · simp [hsp]
      · simp [hsp, hp]
    · simp [hu]
  refine ⟨part1, part2, ?_, ?_⟩
  · intro idn t rd ht hcase
    have hrdv : (mkMovieItem idn t rd).pyGet "release_date" = rd := rfl
    have hrd : extractReleaseDate (mkMovieItem idn t rd) = Except.ok none := by
      rcases hcase with hf | ⟨u, rfl, hp⟩
      · exact part1 _ (by rw [hrdv]; exact hf)
      · exact part2 _ u hrdv hp
    have hg : extractGenres (mkMovieItem idn t rd) = Except.ok (Json.arr []) := rfl
    have htv : titleValue (mkMovieItem idn t rd) = Json.str t := by
      unfold titleValue
      dsimp only
      have htt : (Json.str t).truthy = true := by simp [Json.truthy, ht]
      rw [show (mkMovieItem idn t rd).pyGet "title" = Json.str t from rfl, htt]
      simp
    refine ⟨{ tmdb_id := Json.num idn, title := Json.str (t.take 255)
              overview := Json.str "", release_date := none
              poster_path := Json.null, backdrop_path := Json.null
              vote_average := 0, vote_count := 0, genres := Json.arr [] },
            ?_, rfl, ?_⟩
    · unfold normalizeFields
      rw [hrd, hg, htv]
      rfl
    · have hnf : normalizeFields (mkMovieItem idn t rd) = Except.ok
          { tmdb_id := Json.num idn, title := Json.str (t.take 255)
            overview := Json.str "", release_date := none
            poster_path := Json.null, backdrop_path := Json.null
            vote_average := 0, vote_count := 0, genres := Json.arr [] } := by
        unfold normalizeFields
        rw [hrd, hg, htv]
        rfl
      exact gocm_create (d := mkMovieItem idn t rd) rfl hnf [] rfl
  · intro d s hk htr hns
    have he : extractReleaseDate d = Except.error PyExc.attributeError := by
      unfold extractReleaseDate
      rcases hval : d.pyGet "release_date" with _ | b | n | u | xs | kvs
      · rw [hval] at htr
        simp [Json.truthy] at htr
      · rw [hval] at htr
        simp [htr]
      · rw [hval] at htr
        simp [htr]
      · exact absurd hval (hns u)
      · rw [hval] at htr
        simp [htr]
      · rw [hval] at htr
        simp [htr]
    have hnf : normalizeFields d = Except.error PyExc.attributeError := by
      unfold normalizeFields
      rw [he]
    obtain ⟨kvs, rfl⟩ := Json.hasKey_obj hk
    refine gocm_fail s (item_raises_obj kvs) ?_
    simp [item_ok, hnf, isOkB]

/-- C6 witness: the amended theorem at the malformed date `"2024-13-40"`,
which parses to nothing: the record still succeeds, stored with an absent
release date. -/
theorem c6_amended_release_date_policy_witness :
    ∃ f, normalizeFields (mkMovieItem 7 "T" (Json.str "2024-13-40")) =
        Except.ok f ∧
      f.release_date = none ∧
      get_or_create_movie (mkMovieItem 7 "T" (Json.str "2024-13-40")) [] =
        Except.ok ((some f, true), [f]) :=
  c6_amended_release_date_policy.2.2.1 7 "T" (Json.str "2024-13-40")
    (by decide) (Or.inr ⟨"2024-13-40", rfl, rfl⟩)

/-- The record `sampleEmptyOrigItem` normalizes to: the stored title is the
empty string. -/
def sampleMovieEmptyTitle : Movie :=
  { tmdb_id := Json.num 10, title := Json.str "", overview := Json.str ""
    release_date := none, poster_path := Json.null, backdrop_path := Json.null
    vote_average := 0, vote_count := 0, genres := Json.arr [] }

/-- C7, counterexample.  The claim says the sentinel `"Unknown Title"` is
stored whenever both title fields are absent or empty; for an item whose
`original_title` key is present but empty, `get('original_title',
'Unknown Title')` returns the stored empty string — the record is stored
with title `""`, not the sentinel. -/
theorem c7_counterexample_empty_alternate_title :
    get_or_create_movie sampleEmptyOrigItem [] =
      Except.ok ((some sampleMovieEmptyTitle, true), [sampleMovieEmptyTitle]) ∧
    sampleMovieEmptyTitle.title = Json.str "" ∧
    Json.str "" ≠ Json.str "Unknown Title" := by
  refine ⟨rfl, rfl, ?_⟩
  decide

/-- C7 (amended): the stored title is the primary title field when truthy,
else the alternate `original_title` value whenever that key is present —
including a present-but-empty value, which is stored as the empty string —
and the literal `"Unknown Title"` only when the alternate key is absent;
the chosen string is truncated to at most 255 characters and string
truncation never errors. -/
theorem c7_amended_title_resolution :
    (∀ d : Json, (d.pyGet "title").truthy = true →
        titleValue d = d.pyGet "title") ∧
    (∀ d : Json, (d.pyGet "title").truthy = false →
        d.hasKey "original_title" = true →
        titleValue d = d.pyGet "original_title") ∧
    (∀ d : Json, (d.pyGet "title").truthy = false →
        d.hasKey "original_title" = false →
        titleValue d = Json.str "Unknown Title") ∧
    (∀ u : String, slicedTitle (Json.str u) = Except.ok (Json.str (u.take 255)) ∧
        (u.take 255).length ≤ 255) ∧
    (∀ (d : Json) (f : Movie), normalizeFields d = Except.ok f →
        slicedTitle (titleValue d) = Except.ok f.title) := by
  refine ⟨?_, ?_, ?_, ?_, ?_⟩
  · intro d h
    unfold titleValue
    dsimp only
    rw [h]
    simp
  · intro d h hk
    unfold titleValue
    dsimp only
    rw [h]
    simp only [Bool.false_eq_true, if_false]
    unfold Json.pyGetD Json.pyGet
    unfold Json.hasKey at hk
    rcases hl : d.lookup "original_title" with _ | v
    · rw [hl] at hk
      simp at hk
    · rfl
  · intro d h hk
    unfold titleValue
    dsimp only
    rw [h]
    simp only [Bool.false_eq_true, if_false]
    unfold Json.pyGetD
    unfold Json.hasKey at hk
    rcases hl : d.lookup "original_title" with _ | v
    · rfl
    · rw [hl] at hk
      simp at hk
  · intro u
    refine ⟨rfl, ?_⟩
    rcases htk : u.take 255 with ⟨l⟩
    have h1 : l = u.data.take 255 := by
      have h2 := String.data_take u 255
      rw [htk] at h2
      exact h2
    have h3 : (String.mk l).length = l.length := rfl
    rw [h3, h1, List.length_take]
    exact Nat.min_le_left _ _
  · intro d f hnf
    exact (normalizeFields_parts hnf).2.2.1

/-- C7 witness: the amended theorem applied to the item with an empty
alternate title (stored title is the empty string) and to a well-formed
item (stored title is the sliced primary title). -/
theorem c7_amended_title_resolution_witness :
    titleValue sampleEmptyOrigItem = sampleEmptyOrigItem.pyGet "original_title" ∧
    slicedTitle (titleValue sampleGoodItem) = Except.ok sampleMovieT.title :=
  ⟨c7_amended_title_resolution.2.1 sampleEmptyOrigItem rfl rfl,
   c7_amended_title_resolution.2.2.2.2 sampleGoodItem sampleMovieT rfl⟩

theorem filterMap_genreName_all_named (gs : List Json)
    (h : ∀ g ∈ gs, ∃ kvs2, g = Json.obj kvs2 ∧
        (Json.obj kvs2).hasKey "name" = true) :
    gs.filterMap genreName = gs.map (fun g => g.pyGet "name") := by
  induction gs with
  | nil => rfl
  | cons g rest ih =>
      obtain ⟨kvs2, rfl, hk⟩ := h g (by simp)
      have hrest := ih (fun x hx => h x (by simp [hx]))
      unfold Json.hasKey at hk
      rcases hl : (Json.obj kvs2).lookup "name" with _ | v
      · rw [hl] at hk
        simp at hk
      · simp [List.filterMap_cons, genreName, hl, hrest, Json.pyGet]

/-- A raw item carrying both genre shapes at once. -/
def sampleGenresItem : Json :=
  Json.obj [("genres", Json.arr [Json.obj [("name", Json.str "Action")]]),
            ("genre_ids", Json.arr [Json.num 28, Json.num 12])]

/-- A raw item whose `genres` key holds a truthy string while a non-empty
genre-id list is also present. -/
def sampleStrGenresItem : Json :=
  Json.obj [("genres", Json.str "x"),
            ("genre_ids", Json.arr [Json.num 28, Json.num 12])]

/-- C8, counterexample.  The claim says that whenever no full genre-object
list is present and non-empty, a present non-empty genre-id list is stored
verbatim; but the code branches on the mere truthiness of the `genres`
value: for `sampleStrGenresItem` there is no genre-object list at all (the
value is the string `"x"`), yet the stored genres are `[]` — iterating the
string yields characters, none of which is a dict — and the id list is
never consulted. -/
theorem c8_counterexample_truthy_string_genres :
    extractGenres sampleStrGenresItem = Except.ok (Json.arr []) ∧
    Json.arr ([] : List Json) ≠ Json.arr [Json.num 28, Json.num 12] := by
  refine ⟨rfl, ?_⟩
  decide

/-- C8 (amended): the genre branch is chosen by the truthiness of the
`genres` value, not by it being a genre-object list.  A truthy list yields
the names of its dict-with-name elements in the given order, winning over
any simultaneously present id list; a truthy string yields the empty list
(its iteration produces no dict elements), still without consulting
`genre_ids`; a truthy number raises and hard-fails the whole item.  Only
when the `genres` value is absent or falsy is a present non-empty genre-id
list stored verbatim, and when both are absent or falsy the stored genres
are empty.  The two shapes are never merged, and every normalized record
stores exactly this extraction. -/
theorem c8_amended_genre_extraction (d : Json) :
    (∀ gs : List Json, d.pyGet "genres" = Json.arr gs → gs ≠ [] →
        (∀ g ∈ gs, ∃ kvs2, g = Json.obj kvs2 ∧
            (Json.obj kvs2).hasKey "name" = true) →
        extractGenres d =
          Except.ok (Json.arr (gs.map (fun g => g.pyGet "name")))) ∧
    (∀ u : String, d.pyGet "genres" = Json.str u → u ≠ "" →
        extractGenres d = Except.ok (Json.arr [])) ∧
    (∀ n : Int, d.pyGet "genres" = Json.num n → n ≠ 0 →
        extractGenres d = Except.error PyExc.typeError) ∧
    (∀ ids : List Json, (d.pyGet "genres").truthy = false →
        d.pyGet "genre_ids" = Json.arr ids → ids ≠ [] →
        extractGenres d = Except.ok (Json.arr ids)) ∧
    ((d.pyGet "genres").truthy = false →
        (d.pyGet "genre_ids").truthy = false →
        extractGenres d = Except.ok (Json.arr [])) ∧
    (∀ f : Movie, normalizeFields d = Except.ok f →
        extractGenres d = Except.ok f.genres) := by
  refine ⟨?_, ?_, ?_, ?_, ?_, ?_⟩
  · intro gs hg hne hall
    have ht : (d.pyGet "genres").truthy = true := by
      rw [hg]
      simp [Json.truthy, hne]
    unfold extractGenres
    rw [ht, hg]
    simp [filterMap_genreName_all_named gs hall]
  · intro u hg hu
    have ht : (d.pyGet "genres").truthy = true := by
      rw [hg]
      simp [Json.truthy, hu]
    unfold extractGenres
    rw [ht, hg]
    simp
  · intro n hg hn
    have ht : (d.pyGet "genres").truthy = true := by
      rw [hg]
      simp [Json.truthy, hn]
    unfold extractGenres
    rw [ht, hg]
    simp
  · intro ids hgf hgi hne
    have ht : (Json.arr ids).truthy = true := by simp [Json.truthy, hne]
    unfold extractGenres
    rw [hgf, hgi]
    simp [ht]
  · intro hgf hgi
    unfold extractGenres
    rw [hgf, hgi]
    simp
  · intro f hnf
    exact (normalizeFields_parts hnf).2.1

/-- C8 witness: the amended theorem applied to the item carrying both
shapes (the object form wins), to the truthy-string item (empty genres,
ids not consulted), and to an item with only an id list (stored
verbatim). -/
theorem c8_amended_genre_extraction_witness :
    extractGenres sampleGenresItem = Except.ok (Json.arr [Json.str "Action"]) ∧
    extractGenres sampleStrGenresItem = Except.ok (Json.arr []) ∧
    extractGenres (Json.obj [("genre_ids", Json.arr [Json.num 28, Json.num 12])]) =
      Except.ok (Json.arr [Json.num 28, Json.num 12]) := by
  refine ⟨?_, ?_, ?_⟩
  · exact (c8_amended_genre_extraction sampleGenresItem).1
      [Json.obj [("name", Json.str "Action")]] rfl (by decide)
      (by
        intro g hg
        simp only [List.mem_singleton] at hg
        subst hg
        exact ⟨[("name", Json.str "Action")], rfl, rfl⟩)
  · exact (c8_amended_genre_extraction sampleStrGenresItem).2.1 "x" rfl
      (by decide)
  · exact (c8_amended_genre_extraction _).2.2.2.1 [Json.num 28, Json.num 12]
      rfl rfl (by decide)

/-- The record `sampleItemB` normalizes to (same external id as
`sampleMovieT`, different title). -/
def sampleMovieB : Movie :=
  { tmdb_id := Json.num 1, title := Json.str "B", overview := Json.str ""
    release_date := none, poster_path := Json.null, backdrop_path := Json.null
    vote_average := 0, vote_count := 0, genres := Json.arr [] }

/-- C2: for a store holding no record with the shared external id, the
first normalize-and-store call creates exactly one record from its own
input; a second call with the same external id creates nothing, is not an
error, and returns `wasCreated = false` together with the record stored by
the first call — not the second call's field values.  The store operation
is the atomic find-or-insert guaranteed by the unique `tmdb_id` column, so
any interleaving of two concurrent calls is one of the two sequential
orders covered here. -/
theorem c2_get_or_create_idempotent (s : Store) (d1 d2 : Json) (f1 f2 : Movie)
    (hk1 : d1.hasKey "id" = true) (hk2 : d2.hasKey "id" = true)
    (h1 : normalizeFields d1 = Except.ok f1)
    (h2 : normalizeFields d2 = Except.ok f2)
    (hid : f2.tmdb_id = f1.tmdb_id)
    (habs : List.find? (fun m => m.tmdb_id == f1.tmdb_id) s = none) :
    get_or_create_movie d1 s = Except.ok ((some f1, true), s ++ [f1]) ∧
    get_or_create_movie d2 (s ++ [f1]) =
      Except.ok ((some f1, false), s ++ [f1]) ∧
    ((s ++ [f1]).filter (fun m => m.tmdb_id == f1.tmdb_id)).length = 1 := by
  refine ⟨gocm_create hk1 h1 s habs, ?_, ?_⟩
  · have hok2 : item_ok d2 = true := by simp [item_ok, hk2, h2, isOkB]
    obtain ⟨f2b, hf2b, he2⟩ := gocm_ok (s ++ [f1]) hok2
    rw [h2] at hf2b
    injection hf2b with hf2b
    subst hf2b
    have hfind : List.find? (fun m => m.tmdb_id == f2.tmdb_id) (s ++ [f1]) =
        some f1 := by
      rw [List.find?_append]
      have hs : List.find? (fun m => m.tmdb_id == f2.tmdb_id) s = none := by
        rw [hid]
        exact habs
      rw [hs]
      simp [List.find?_cons, hid, beq_self_json]
    have hsgc : store_get_or_create f2 (s ++ [f1]) = ((f1, false), s ++ [f1]) := by
      unfold store_get_or_create
      rw [hfind]
    rw [he2, hsgc]
  · have hnil : s.filter (fun m => m.tmdb_id == f1.tmdb_id) = [] := by
      rw [List.filter_eq_nil_iff]
      intro a ha
      simpa using List.find?_eq_none.mp habs a ha
    rw [List.filter_append, hnil]
    simp [beq_self_json]

/-- C2 witness: two items sharing external id 1; the second call returns
the first call's stored record (title `"T"`, not `"B"`) with
`wasCreated = false`. -/
theorem c2_get_or_create_idempotent_witness :
    get_or_create_movie sampleItemB ([] ++ [sampleMovieT]) =
      Except.ok ((some sampleMovieT, false), [] ++ [sampleMovieT]) :=
  (c2_get_or_create_idempotent [] sampleGoodItem sampleItemB sampleMovieT
    sampleMovieB rfl rfl rfl rfl rfl rfl).2.1

/-- C1, counterexample.  The claim says an empty result set never
populates the cache for any query class; a search query whose upstream
body has an empty `results` list responds 200 and writes that empty result
set into the cache under its search key. -/
theorem c1_counterexample_search_caches_empty_results :
    (search_movies "q" (Json.num 1) [] [] (some emptyResultsBody)).status = 200 ∧
    (search_movies "q" (Json.num 1) [] [] (some emptyResultsBody)).cache =
      [("movie_search_q_page_1",
        Json.obj [("results", Json.arr []), ("total_results", Json.num 0),
                  ("total_pages", Json.num 1), ("current_page", Json.num 1),
                  ("query", Json.str "q")], 1800)] :=
  ⟨rfl, rfl⟩

/-- C1 (amended): the cache is written only by a pipeline run that responds
200; an upstream failure or error outcome never populates it, and the
trending view additionally caches only a non-empty result list — but the
search and popular views cache every successful run, including one whose
processed result set is empty. -/
theorem c1_amended_cache_population_policy :
    (∀ (c : Cache) (s : Store), (get_trending_movies c s none).cache = c) ∧
    (∀ (q : String) (p : Json) (c : Cache) (s : Store),
        (search_movies q p c s none).cache = c) ∧
    (∀ (c : Cache) (s : Store), (get_popular_movies c s none).cache = c) ∧
    (∀ (c : Cache) (s : Store) (up : Option Json),
        (get_trending_movies c s up).cache = c ∨
        ((get_trending_movies c s up).status = 200 ∧
         ∃ ms, ms ≠ [] ∧ (get_trending_movies c s up).cache =
           cacheSet c "trending_movies" (Json.arr ms) 3600)) ∧
    (∀ (q : String) (page : Json) (c : Cache) (s : Store) (up : Option Json),
        (search_movies q page c s up).cache = c ∨
        ((search_movies q page c s up).status = 200 ∧
         ∃ pl, (search_movies q page c s up).cache =
           cacheSet c ("movie_search_" ++ q ++ "_page_" ++ pyStr page) pl 1800)) ∧
    (∀ (c : Cache) (s : Store) (up : Option Json),
        (get_popular_movies c s up).cache = c ∨
        ((get_popular_movies c s up).status = 200 ∧
         ∃ pl, (get_popular_movies c s up).cache =
           cacheSet c "popular_movies" pl 3600)) :=
  ⟨trending_cache_upstream_fail, search_cache_upstream_fail,
   popular_cache_upstream_fail, trending_cache_char, search_cache_char,
   popular_cache_char⟩

/-- C3, counterexample.  The claim says a non-empty batch whose items all
fail is reported as a server error for every catalog list query; the search
view, given a 1-item batch whose item lacks the identity field, responds
200 with an empty result list instead. -/
theorem c3_counterexample_search_allfail_is_success :
    (search_movies "q" (Json.num 1) [] [] (some singleNoIdBody)).status = 200 ∧
    (search_movies "q" (Json.num 1) [] [] (some singleNoIdBody)).body =
      Json.obj [("results", Json.arr []), ("total_results", Json.num 0),
                ("total_pages", Json.num 1), ("current_page", Json.num 1),
                ("query", Json.str "q")] :=
  ⟨rfl, rfl⟩

theorem search_batch_error (q : String) (page : Json) (c : Cache)
    (s : Store) (kvs : List (String × Json)) (items : List Json)
    (es : PyExc × Store)
    (hq : (q == "") = false)
    (hmiss : hitPayload c ("movie_search_" ++ q ++ "_page_" ++ pyStr page) = none)
    (hres : (Json.obj kvs).lookup "results" = some (Json.arr items))
    (hstrict : processBatchStrict items s = Except.error es) :
    search_movies q page c s (some (Json.obj kvs)) =
      { status := 500, body := errorBody "Internal server error"
        cache := c, store := es.2, upstreamCalled := true } := by
  have hk : (Json.obj kvs).hasKey "results" = true := by
    simp [Json.hasKey, hres]
  have ht : (Json.obj kvs).truthy = true := Json.hasKey_truthy hk
  have hc : pyContains (Json.obj kvs) "results" = Except.ok true := by
    simp [pyContains, hk]
  have hsub : pySubscript (Json.obj kvs) "results" = Except.ok (Json.arr items) := by
    simp [pySubscript, hres]
  unfold search_movies
  rw [hq]
  simp only [Bool.false_eq_true, if_false]
  rw [hmiss]
  simp only [ht, hc, hsub, pyIterate, hstrict, Bool.not_true,
    Bool.false_eq_true, if_false]

/-- C3 (amended): for a non-empty upstream batch the trending view reports
a 500 server error when zero items succeed and otherwise responds 200 with
exactly the items that succeeded (a raising item is absorbed by its
per-item handler and merely counted failed); the search view responds 200
with exactly the items that succeeded — even when every item of the batch
fails — as long as no item makes the storage helper raise, i.e. for the
dict-shaped batches upstream delivers; a truthy non-dict item instead
aborts the unguarded search loop into a 500 that caches nothing. -/
theorem c3_amended_aggregation (c : Cache) (s : Store)
    (kvs : List (String × Json)) (items : List Json)
    (hres : (Json.obj kvs).lookup "results" = some (Json.arr items))
    (hne : items ≠ []) :
    (hitPayload c "trending_movies" = none →
      ((items.countP (fun d => item_ok d) = 0 →
          (get_trending_movies c s (some (Json.obj kvs))).status = 500) ∧
       (0 < items.countP (fun d => item_ok d) →
          (get_trending_movies c s (some (Json.obj kvs))).status = 200 ∧
          (processBatch items s).movies.length =
            items.countP (fun d => item_ok d) ∧
          ∃ md, (get_trending_movies c s (some (Json.obj kvs))).body =
            Json.obj [("results", Json.arr (processBatch items s).movies),
                      ("metadata", md)]))) ∧
    (∀ (q : String) (page : Json) (pg : Int), (q == "") = false →
        hitPayload c ("movie_search_" ++ q ++ "_page_" ++ pyStr page) = none →
        (∀ d ∈ items, item_raises d = false) →
        pyIntStrict page = Except.ok pg →
        (search_movies q page c s (some (Json.obj kvs))).status = 200 ∧
        (processBatch items s).movies.length =
          items.countP (fun d => item_ok d) ∧
        ∃ rest, (search_movies q page c s (some (Json.obj kvs))).body =
          Json.obj (("results", Json.arr (processBatch items s).movies) :: rest)) ∧
    (∀ (q : String) (page : Json) (d0 : Json) (rest0 : List Json),
        (q == "") = false →
        hitPayload c ("movie_search_" ++ q ++ "_page_" ++ pyStr page) = none →
        items = d0 :: rest0 → item_raises d0 = true →
        (search_movies q page c s (some (Json.obj kvs))).status = 500 ∧
        (search_movies q page c s (some (Json.obj kvs))).cache = c) := by
  refine ⟨?_, ?_, ?_⟩
  · intro hmiss
    constructor
    · intro hzero
      have hmv : (processBatch items s).movies = [] := by
        have hl := processBatch_movies_length items s
        rw [hzero] at hl
        exact List.length_eq_zero.mp hl
      rw [trending_allfail c s kvs items hmiss hres hne hmv]
    · intro hpos
      have hmv : (processBatch items s).movies ≠ [] := by
        intro hnil
        have hl := processBatch_movies_length items s
        rw [hnil] at hl
        simp at hl
        omega
      rw [trending_success c s kvs items hmiss hres hne hmv]
      exact ⟨rfl, processBatch_movies_length items s, _, rfl⟩
  · intro q page pg hq hmiss hnr hpg
    rw [search_success q page pg c s kvs items hq hmiss hres hnr hpg]
    exact ⟨rfl, processBatch_movies_length items s, _, rfl⟩
  · intro q page d0 rest0 hq hmiss hitems hraise
    subst hitems
    rw [search_batch_error q page c s kvs (d0 :: rest0)
      (PyExc.attributeError, s) hq hmiss hres
      (processBatchStrict_raise_head d0 rest0 s hraise)]
    exact ⟨rfl, rfl⟩

/-- C3 witness: a 2-item batch with exactly one failing item — both the
trending and search pipelines respond 200. -/
theorem c3_amended_aggregation_witness :
    (get_trending_movies [] []
      (some (Json.obj [("results",
        Json.arr [sampleGoodItem, sampleNoIdItem])]))).status = 200 ∧
    (search_movies "q" (Json.num 1) [] []
      (some (Json.obj [("results",
        Json.arr [sampleGoodItem, sampleNoIdItem])]))).status = 200 :=
  ⟨(((c3_amended_aggregation [] []
        [("results", Json.arr [sampleGoodItem, sampleNoIdItem])]
        [sampleGoodItem, sampleNoIdItem] rfl
        (by decide)).1 rfl).2 (by decide)).1,
   ((c3_amended_aggregation [] []
        [("results", Json.arr [sampleGoodItem, sampleNoIdItem])]
        [sampleGoodItem, sampleNoIdItem] rfl
        (by decide)).2.1 "q" (Json.num 1) 1 rfl rfl (by decide) rfl).1⟩

theorem search_replay (q : String) (page : Json) (c : Cache) (st : Store)
    (up2 : Option Json) (pl : Json) (hq : (q == "") = false)
    (hhit : hitPayload c ("movie_search_" ++ q ++ "_page_" ++ pyStr page) =
      some pl) :
    search_movies q page c st up2 =
      { status := 200, body := pl, cache := c, store := st,
        upstreamCalled := false } := by
  unfold search_movies
  simp only [hq, Bool.false_eq_true, if_false]
  rw [hhit]

theorem trending_replay (c : Cache) (st : Store) (up2 : Option Json)
    (pl : Json) (hhit : hitPayload c "trending_movies" = some pl) :
    get_trending_movies c st up2 =
      { status := 200, body := pl, cache := c, store := st,
        upstreamCalled := false } := by
  unfold get_trending_movies
  rw [hhit]

/-- C5, counterexample.  The claim says a repeated query within the TTL
window returns the identical payload the first query returned; for the
trending view the first response wraps the list in `results` plus
`metadata`, while the cache stores only the bare list, so the replayed
response differs from the first one (while indeed making no second
upstream call). -/
theorem c5_counterexample_trending_replay_differs :
    (get_trending_movies
        (get_trending_movies [] [] (some singleGoodBody)).cache
        (get_trending_movies [] [] (some singleGoodBody)).store
        none).upstreamCalled = false ∧
    (get_trending_movies
        (get_trending_movies [] [] (some singleGoodBody)).cache
        (get_trending_movies [] [] (some singleGoodBody)).store
        none).status = 200 ∧
    (get_trending_movies
        (get_trending_movies [] [] (some singleGoodBody)).cache
        (get_trending_movies [] [] (some singleGoodBody)).store
        none).body ≠
      (get_trending_movies [] [] (some singleGoodBody)).body := by
  refine ⟨rfl, rfl, ?_⟩
  decide

/-- C5 (amended): after a successful run populates the cache, a repeated
query within the TTL window is served by the cache hit alone — no second
upstream call for any view; for the search view the replayed payload is
identical to the first response's payload, but for the trending view the
replay returns only the bare cached result list, not the metadata-wrapped
payload of the first response.  (The search half is stated for batches
whose items do not make the storage helper raise: a raising batch 500s and
caches nothing, so there is no successful first response to replay.) -/
theorem c5_amended_cache_replay (c : Cache) (s : Store)
    (kvs : List (String × Json)) (items : List Json) (q : String)
    (page : Json) (pg : Int) (up2 : Option Json)
    (hq : (q == "") = false)
    (hmiss : hitPayload c ("movie_search_" ++ q ++ "_page_" ++ pyStr page) = none)
    (hres : (Json.obj kvs).lookup "results" = some (Json.arr items))
    (hnr : ∀ d ∈ items, item_raises d = false)
    (hpg : pyIntStrict page = Except.ok pg)
    (hmiss2 : hitPayload c "trending_movies" = none)
    (hne : items ≠ [])
    (hpos : 0 < items.countP (fun d => item_ok d)) :
    ((search_movies q page
        (search_movies q page c s (some (Json.obj kvs))).cache
        (search_movies q page c s (some (Json.obj kvs))).store
        up2).upstreamCalled = false ∧
     (search_movies q page
        (search_movies q page c s (some (Json.obj kvs))).cache
        (search_movies q page c s (some (Json.obj kvs))).store
        up2).body =
       (search_movies q page c s (some (Json.obj kvs))).body) ∧
    ((get_trending_movies
        (get_trending_movies c s (some (Json.obj kvs))).cache
        (get_trending_movies c s (some (Json.obj kvs))).store
        up2).upstreamCalled = false ∧
     (get_trending_movies
        (get_trending_movies c s (some (Json.obj kvs))).cache
        (get_trending_movies c s (some (Json.obj kvs))).store
        up2).body ≠
       (get_trending_movies c s (some (Json.obj kvs))).body) := by
  have hs1 := search_success q page pg c s kvs items hq hmiss hres hnr hpg
  have hmv : (processBatch items s).movies ≠ [] := by
    intro hnil
    have hl := processBatch_movies_length items s
    rw [hnil] at hl
    simp at hl
    omega
  have ht1 := trending_success c s kvs items hmiss2 hres hne hmv
  constructor
  · rw [hs1]
    dsimp only
    have hhit2 := hitPayload_cacheSet c
      ("movie_search_" ++ q ++ "_page_" ++ pyStr page)
      (Json.obj
        [("results", Json.arr (processBatch items s).movies),
         ("total_results", (Json.obj kvs).pyGetD "total_results" (Json.num 0)),
         ("total_pages", (Json.obj kvs).pyGetD "total_pages" (Json.num 1)),
         ("current_page", Json.num pg),
         ("query", Json.str q)]) 1800 rfl
    rw [search_replay q page _ _ up2 _ hq hhit2]
    exact ⟨rfl, rfl⟩
  · rw [ht1]
    dsimp only
    have hhit3 := hitPayload_cacheSet c "trending_movies"
      (Json.arr (processBatch items s).movies) 3600 (by simp [Json.truthy, hmv])
    rw [trending_replay _ _ up2 _ hhit3]
    refine ⟨rfl, ?_⟩
    intro h
    exact Json.noConfusion h

/-- C5 witness: the amended theorem at a concrete one-item search and
trending run — the replayed search payload equals the first one. -/
theorem c5_amended_cache_replay_witness :
    (search_movies "q" (Json.num 1)
        (search_movies "q" (Json.num 1) [] []
          (some (Json.obj [("results", Json.arr [sampleGoodItem])]))).cache
        (search_movies "q" (Json.num 1) [] []
          (some (Json.obj [("results", Json.arr [sampleGoodItem])]))).store
        none).body =
      (search_movies "q" (Json.num 1) [] []
        (some (Json.obj [("results", Json.arr [sampleGoodItem])]))).body :=
  ((c5_amended_cache_replay [] [] [("results", Json.arr [sampleGoodItem])]
      [sampleGoodItem] "q" (Json.num 1) 1 none rfl rfl rfl (by decide) rfl rfl
      (by decide) (by decide)).1).2
